import Mathlib

/-!
Shallow embedding of the `diabetes-web-app` Flask application (`src/app.py`).

The application is a CRUD web app: users register with email/password,
log in, and record glucose readings; the dashboard lists the 30 most
recent entries of the current user.

Modelling conventions:
* the SQLAlchemy tables become Lean structures (`User`, `GlucoseEntry`)
  held in a `DB` record together with the autoincrement counters;
* a request carries the HTTP method, the form fields (`request.form.get`
  returns `none` for an absent field), the flask-login session (the id
  of the logged-in user, if any) and the server clock used for the
  `datetime.utcnow` column default;
* each route handler becomes a pure function `DB → Request → HandlerResult`
  returning the new store, the flashes emitted, the response and the
  resulting session;
* `werkzeug.security.generate_password_hash` is salted and injective and
  never stores the plaintext; it is modelled as prefixing a method tag,
  with `check_password_hash h p` holding exactly when `h` is the hash of
  `p` (the round-trip semantics the app relies on);
* Python `float(s)` is modelled by `pyFloat` over the ASCII fragment of
  CPython's grammar: optional surrounding whitespace, optional sign,
  `inf`/`infinity`/`nan` case-insensitively, or a decimal literal with
  optional fraction, exponent and digit-group underscores.  Since the app
  never computes with the value, finite values are kept as exact
  rationals (`PyFloat.val`); rounding to binary64 is unobservable here.
-/

namespace DiabetesApp

/-! ### String constants of the application -/

def fEmail : String := "email"

def fPassword : String := "password"

def fConfirm : String := "confirm"

def fGlucose : String := "glucose_value"

def fMedication : String := "medication"

def fNotes : String := "notes"

def msgRequired : String := "Email and password are required."

def msgMismatch : String := "Passwords do not match."

def msgTaken : String := "Email already registered. Please log in."

def msgRegOk : String := "Registration successful. Please log in."

def msgLoginOk : String := "Logged in successfully."

def msgInvalid : String := "Invalid email or password."

def msgLoggedOut : String := "Logged out."

def msgBadNumber : String := "Please enter a valid number for glucose value."

def msgSaved : String := "Entry saved."

def msgPleaseLogIn : String := "Please log in to access this page."

def catDanger : String := "danger"

def catWarning : String := "warning"

def catSuccess : String := "success"

def catInfo : String := "info"

def catMessage : String := "message"

def emptyString : String := ""

/-! ### Password hashing (model of werkzeug.security) -/

def hashMethodTag : String := "pbkdf2:sha256$salt$"

/-- Model of `werkzeug.security.generate_password_hash`: a salted hash,
never the plaintext.  Modelled as an injective tagging of the password;
only the properties the app uses are relied on: the output differs from
the plaintext, and `check_password_hash` recovers equality of passwords. -/
def generate_password_hash (password : String) : String :=
  hashMethodTag ++ password

/-- Model of `werkzeug.security.check_password_hash`. -/
def check_password_hash (hash password : String) : Bool :=
  hash == generate_password_hash password

/-! ### Python float parsing (model of `float(s)` on ASCII input) -/

/-- Value domain of Python floats as observed by this app: NaN, signed
infinity, or a finite value kept as an exact rational. -/
inductive PyFloat where
  | nan : PyFloat
  | inf : Bool → PyFloat
  | val : Rat → PyFloat
deriving Repr, DecidableEq

/-- ASCII whitespace stripped by `float` (Py_ISSPACE). -/
def pySpace (c : Char) : Bool :=
  (c == ' ') || (c == '\t') || (c == '\n') || (c == '\r') ||
    (c == '\x0b') || (c == '\x0c')

def digitVal (c : Char) : Nat :=
  c.toNat - 48

def digitsToNat (acc : Nat) : List Char → Nat
  | [] => acc
  | c :: cs => digitsToNat (acc * 10 + digitVal c) cs

/-- Value of a decimal literal with `mant` the concatenated integer and
fraction digits, `fracLen` the number of fraction digits and `ex` the
exponent: `mant * 10 ^ (ex - fracLen)` as an exact rational. -/
def ratVal (mant fracLen : Nat) (ex : Int) : Rat :=
  let k : Int := ex - (fracLen : Int)
  if 0 ≤ k then (mant : Rat) * ((10 ^ k.toNat : Nat) : Rat)
  else (mant : Rat) / ((10 ^ (-k).toNat : Nat) : Rat)

def parseUnsignedExp (cs : List Char) : Option Int :=
  match cs with
  | [] => none
  | _ => if cs.all Char.isDigit then some (Int.ofNat (digitsToNat 0 cs)) else none

def parseExpPart (cs : List Char) : Option Int :=
  match cs with
  | '+' :: rest => parseUnsignedExp rest
  | '-' :: rest => (parseUnsignedExp rest).map (fun n => -n)
  | _ => parseUnsignedExp cs

/-- Consume an optional exponent part after the mantissa. -/
def finishExp (mant fracLen : Nat) (rest : List Char) : Option Rat :=
  match rest with
  | [] => some (ratVal mant fracLen 0)
  | c :: tail =>
      if c.toLower == 'e' then
        match parseExpPart tail with
        | some ex => some (ratVal mant fracLen ex)
        | none => none
      else none

/-- Decimal literal: `digits [. digits] [exp]` or `. digits [exp]`, with
at least one mantissa digit (underscores already removed). -/
def parseMantExp (cs : List Char) : Option Rat :=
  let ip := cs.takeWhile Char.isDigit
  let rest1 := cs.dropWhile Char.isDigit
  match rest1 with
  | '.' :: rest2 =>
      let fp := rest2.takeWhile Char.isDigit
      let rest3 := rest2.dropWhile Char.isDigit
      if ip.length + fp.length = 0 then none
      else finishExp (digitsToNat 0 (ip ++ fp)) fp.length rest3
  | _ =>
      if ip.length = 0 then none
      else finishExp (digitsToNat 0 ip) 0 rest1

/-- Every underscore must be surrounded by digits (CPython rule for
numeric literals passed to `float`). -/
def underscoresOkAux : Char → List Char → Bool
  | _, [] => true
  | prev, c :: rest =>
      if c == '_' then
        prev.isDigit &&
          (match rest with
            | [] => false
            | d :: _ => d.isDigit) &&
          underscoresOkAux c rest
      else underscoresOkAux c rest

def underscoresOk (cs : List Char) : Bool :=
  underscoresOkAux 'a' cs

def applySign (neg : Bool) : PyFloat → PyFloat
  | PyFloat.nan => PyFloat.nan
  | PyFloat.inf _ => PyFloat.inf neg
  | PyFloat.val q => PyFloat.val (if neg then -q else q)

def parseUnsigned (cs : List Char) : Option PyFloat :=
  let low := cs.map Char.toLower
  if low = ['i', 'n', 'f'] ∨ low = ['i', 'n', 'f', 'i', 'n', 'i', 't', 'y'] then
    some (PyFloat.inf false)
  else if low = ['n', 'a', 'n'] then
    some PyFloat.nan
  else if underscoresOk cs then
    (parseMantExp (cs.filter (fun c => !(c == '_')))).map PyFloat.val
  else none

def parseSigned (cs : List Char) : Option PyFloat :=
  match cs with
  | '+' :: rest => parseUnsigned rest
  | '-' :: rest => (parseUnsigned rest).map (applySign true)
  | _ => parseUnsigned cs

/-- Model of Python `float : str → float` (ASCII fragment), returning
`none` where `float` raises `ValueError`. -/
def pyFloat (s : String) : Option PyFloat :=
  parseSigned (((s.toList.dropWhile pySpace).reverse.dropWhile pySpace).reverse)

/-- `float(x)` where `x` is `request.form.get(...)`: an absent field is
`None` and raises `TypeError`, which the handler catches on the same
branch as `ValueError`. -/
def pyFloatOfOpt (o : Option String) : Option PyFloat :=
  o.bind pyFloat

/-! ### Data model (the two SQLAlchemy tables) -/

structure User where
  id : Nat
  email : String
  password_hash : String
deriving Repr, DecidableEq

structure GlucoseEntry where
  id : Nat
  timestamp : Nat
  glucose_value : PyFloat
  medication : Option String
  notes : Option String
  user_id : Nat
deriving Repr, DecidableEq

/-- The persistent store: both tables plus the autoincrement counters. -/
structure DB where
  users : List User
  entries : List GlucoseEntry
  nextUserId : Nat
  nextEntryId : Nat
deriving Repr, DecidableEq

/-! ### Requests, responses, handler results -/

inductive Method where
  | get : Method
  | post : Method
deriving Repr, DecidableEq

/-- An incoming HTTP request: method, form fields, the flask-login
session (user id), and the server clock (`datetime.utcnow`) at handling
time. -/
structure Request where
  method : Method
  form : List (String × String)
  session : Option Nat
  now : Nat
deriving Repr, DecidableEq

/-- `request.form.get k`: `some` of the first value bound to `k`, or
`none` when the field is absent. -/
def formGet (form : List (String × String)) (k : String) : Option String :=
  (form.find? (fun p => p.fst == k)).map (fun p => p.snd)

inductive Page where
  | registerPage : Page
  | loginPage : Page
  | dashboardPage : Page
deriving Repr, DecidableEq

/-- Response: a redirect (`url_for` target) or a rendered template; the
dashboard render carries the entries passed to the template. -/
inductive Response where
  | redirect : Page → Response
  | render : Page → List GlucoseEntry → Response
deriving Repr, DecidableEq

structure Flash where
  message : String
  category : String
deriving Repr, DecidableEq

/-- Outcome of one request: new store, flashes emitted, response, and
the session after the request. -/
structure HandlerResult where
  db : DB
  flashes : List Flash
  response : Response
  session : Option Nat
deriving Repr, DecidableEq

/-! ### Session resolution (flask-login) -/

/-- `load_user`: the `user_loader`, looking a user up by primary key. -/
def load_user (db : DB) (uid : Nat) : Option User :=
  db.users.find? (fun u => u.id == uid)

/-- `current_user` resolution: the session names a user id and the
loader finds it; otherwise the request is anonymous. -/
def currentUser (db : DB) (req : Request) : Option User :=
  req.session.bind (load_user db)

/-- `login_required` rejection: flask-login flashes its login message
(category `message`, not an error) and redirects to the login view. -/
def unauthorized (db : DB) (req : Request) : HandlerResult :=
  { db := db
    flashes := [{ message := msgPleaseLogIn, category := catMessage }]
    response := Response.redirect Page.loginPage
    session := req.session }

/-- Python truthiness of an optional form string: `None` and the empty
string are falsy. -/
def truthy (o : Option String) : Bool :=
  match o with
  | none => false
  | some s => !(s == emptyString)

/-- `User.query.filter_by(email=email).first()`; a `None` email matches
no row (SQL `NULL` comparison). -/
def findByEmail (db : DB) (email : Option String) : Option User :=
  match email with
  | some e => db.users.find? (fun u => u.email == e)
  | none => none

/-- `user.check_password(password)`.  In the source a `None` password
would raise inside werkzeug; the model totalises that edge to `false`
and the theorems only invoke it with a present password. -/
def check_password (u : User) (password : Option String) : Bool :=
  match password with
  | some p => check_password_hash u.password_hash p
  | none => false

/-! ### Route handlers -/

/-- The `/` route. -/
def index (db : DB) (req : Request) : HandlerResult :=
  if (currentUser db req).isSome then
    { db := db, flashes := [], response := Response.redirect Page.dashboardPage
      session := req.session }
  else
    { db := db, flashes := [], response := Response.redirect Page.loginPage
      session := req.session }

/-- The `/register` route. -/
def register (db : DB) (req : Request) : HandlerResult :=
  if (currentUser db req).isSome then
    { db := db, flashes := [], response := Response.redirect Page.dashboardPage
      session := req.session }
  else
    match req.method with
    | Method.post =>
        let email := formGet req.form fEmail
        let password := formGet req.form fPassword
        let confirm := formGet req.form fConfirm
        if !(truthy email) || !(truthy password) then
          { db := db
            flashes := [{ message := msgRequired, category := catDanger }]
            response := Response.redirect Page.registerPage
            session := req.session }
        else if password ≠ confirm then
          { db := db
            flashes := [{ message := msgMismatch, category := catDanger }]
            response := Response.redirect Page.registerPage
            session := req.session }
        else if (findByEmail db email).isSome then
          { db := db
            flashes := [{ message := msgTaken, category := catWarning }]
            response := Response.redirect Page.loginPage
            session := req.session }
        else
          let user : User :=
            { id := db.nextUserId
              email := email.getD emptyString
              password_hash := generate_password_hash (password.getD emptyString) }
          { db := { db with users := db.users ++ [user], nextUserId := db.nextUserId + 1 }
            flashes := [{ message := msgRegOk, category := catSuccess }]
            response := Response.redirect Page.loginPage
            session := req.session }
    | Method.get =>
        { db := db, flashes := [], response := Response.render Page.registerPage []
          session := req.session }

/-- The `/login` route. -/
def login (db : DB) (req : Request) : HandlerResult :=
  if (currentUser db req).isSome then
    { db := db, flashes := [], response := Response.redirect Page.dashboardPage
      session := req.session }
  else
    match req.method with
    | Method.post =>
        let email := formGet req.form fEmail
        let password := formGet req.form fPassword
        match findByEmail db email with
        | some user =>
            if check_password user password then
              { db := db
                flashes := [{ message := msgLoginOk, category := catSuccess }]
                response := Response.redirect Page.dashboardPage
                session := some user.id }
            else
              { db := db
                flashes := [{ message := msgInvalid, category := catDanger }]
                response := Response.render Page.loginPage []
                session := req.session }
        | none =>
            { db := db
              flashes := [{ message := msgInvalid, category := catDanger }]
              response := Response.render Page.loginPage []
              session := req.session }
    | Method.get =>
        { db := db, flashes := [], response := Response.render Page.loginPage []
          session := req.session }

/-- The `/logout` route (`login_required`). -/
def logout (db : DB) (req : Request) : HandlerResult :=
  match currentUser db req with
  | none => unauthorized db req
  | some _ =>
      { db := db
        flashes := [{ message := msgLoggedOut, category := catInfo }]
        response := Response.redirect Page.loginPage
        session := none }

/-- Ordering used by the dashboard query: `timestamp` descending. -/
def entryDesc (a b : GlucoseEntry) : Prop :=
  b.timestamp ≤ a.timestamp

instance : DecidableRel entryDesc :=
  fun a b => Nat.decLe b.timestamp a.timestamp

instance : IsTotal GlucoseEntry entryDesc :=
  ⟨fun a b => le_total b.timestamp a.timestamp⟩

instance : IsTrans GlucoseEntry entryDesc :=
  ⟨fun _ _ _ h1 h2 => le_trans h2 h1⟩

/-- The dashboard GET query:
`GlucoseEntry.query.filter_by(user_id=...).order_by(timestamp.desc()).limit(30)`.
Ties in `timestamp` keep insertion order (stable sort), as a table scan
would produce them. -/
def listRecent (db : DB) (userId : Nat) (limit : Nat) : List GlucoseEntry :=
  (List.insertionSort entryDesc
    (db.entries.filter (fun e => e.user_id == userId))).take limit

/-- The entry a dashboard POST constructs: `GlucoseEntry(glucose_value=value,
medication=..., notes=..., user_id=current_user.id)` with the autoincrement
id and the `utcnow` column default. -/
def newGlucoseEntry (db : DB) (req : Request) (user : User) (value : PyFloat) : GlucoseEntry :=
  { id := db.nextEntryId
    timestamp := req.now
    glucose_value := value
    medication := formGet req.form fMedication
    notes := formGet req.form fNotes
    user_id := user.id }

/-- The `/dashboard` route (`login_required`). -/
def dashboard (db : DB) (req : Request) : HandlerResult :=
  match currentUser db req with
  | none => unauthorized db req
  | some user =>
      match req.method with
      | Method.post =>
          match pyFloatOfOpt (formGet req.form fGlucose) with
          | none =>
              { db := db
                flashes := [{ message := msgBadNumber, category := catDanger }]
                response := Response.redirect Page.dashboardPage
                session := req.session }
          | some value =>
              { db := { db with
                          entries := db.entries ++ [newGlucoseEntry db req user value],
                          nextEntryId := db.nextEntryId + 1 }
                flashes := [{ message := msgSaved, category := catSuccess }]
                response := Response.redirect Page.dashboardPage
                session := req.session }
      | Method.get =>
          { db := db, flashes := []
            response := Response.render Page.dashboardPage (listRecent db user.id 30)
            session := req.session }

/-! ### Concrete stores and requests used by witnesses and counterexamples -/

def c1email : String := "alice@example.com"

def c1pw : String := "secret123"

def c1db : DB := { users := [], entries := [], nextUserId := 1, nextEntryId := 1 }

def c1req : Request :=
  { method := Method.post
    form := [(fEmail, c1email), (fPassword, c1pw), (fConfirm, c1pw)]
    session := none
    now := 0 }

def c2entryA : GlucoseEntry :=
  { id := 1, timestamp := 5, glucose_value := PyFloat.val 100
    medication := none, notes := none, user_id := 1 }

def c2entryB : GlucoseEntry :=
  { id := 2, timestamp := 5, glucose_value := PyFloat.val 110
    medication := none, notes := none, user_id := 1 }

def c2db : DB := { users := [], entries := [c2entryA, c2entryB], nextUserId := 1, nextEntryId := 3 }

def c3email : String := "carla@example.com"

def c3pw : String := "pw-one"

def c3user : User := { id := 1, email := c3email, password_hash := generate_password_hash c3pw }

def c3db : DB := { users := [c3user], entries := [], nextUserId := 2, nextEntryId := 1 }

def c3glucose : String := "120"

def c3req : Request :=
  { method := Method.post, form := [(fGlucose, c3glucose)], session := some 1, now := 10 }

def c4email : String := "dora@example.com"

def c4pw : String := "pw-two"

def c4user : User := { id := 1, email := c4email, password_hash := generate_password_hash c4pw }

def c4db : DB := { users := [c4user], entries := [], nextUserId := 2, nextEntryId := 1 }

def c4glucose : String := "100"

def c4req : Request :=
  { method := Method.post, form := [(fGlucose, c4glucose)], session := some 1, now := 5 }

def c5email : String := "erin@example.com"

def c5emailUnknown : String := "ghost@example.com"

def c5pwRight : String := "right-horse"

def c5pwWrong : String := "wrong-horse"

def c5user : User := { id := 1, email := c5email, password_hash := generate_password_hash c5pwRight }

def c5db : DB := { users := [c5user], entries := [], nextUserId := 2, nextEntryId := 1 }

def c5req1 : Request :=
  { method := Method.post, form := [(fEmail, c5emailUnknown), (fPassword, c5pwWrong)]
    session := none, now := 0 }

def c5req2 : Request :=
  { method := Method.post, form := [(fEmail, c5email), (fPassword, c5pwWrong)]
    session := none, now := 0 }

def c6email : String := "fred@example.com"

def c6pw : String := "pw-three"

def c6pwOther : String := "pw-four"

def c6user : User := { id := 1, email := c6email, password_hash := generate_password_hash c6pw }

def c6db : DB := { users := [c6user], entries := [], nextUserId := 2, nextEntryId := 1 }

def c6cexReq : Request :=
  { method := Method.post, form := [(fEmail, c6email), (fPassword, c6pw), (fConfirm, c6pwOther)]
    session := none, now := 0 }

def c6req : Request :=
  { method := Method.post, form := [(fEmail, c6email), (fPassword, c6pw), (fConfirm, c6pw)]
    session := none, now := 0 }

def c7email : String := "gina@example.com"

def c7pw : String := "pw-five"

def c7user : User := { id := 1, email := c7email, password_hash := generate_password_hash c7pw }

def c7db : DB := { users := [c7user], entries := [], nextUserId := 2, nextEntryId := 1 }

def c7req : Request := { method := Method.post, form := [], session := some 1, now := 3 }

def c8email : String := "hank@example.com"

def c8pw : String := "pw-six"

def c8pwA : String := "mismatch-a"

def c8pwB : String := "mismatch-b"

def c8user : User := { id := 1, email := c8email, password_hash := generate_password_hash c8pw }

def c8db : DB := { users := [c8user], entries := [], nextUserId := 2, nextEntryId := 1 }

def c8cexReq : Request :=
  { method := Method.post, form := [(fEmail, c8email), (fPassword, c8pwA), (fConfirm, c8pwB)]
    session := some 1, now := 0 }

def c8req : Request :=
  { method := Method.post, form := [(fEmail, c8email), (fPassword, c8pwA), (fConfirm, c8pwB)]
    session := none, now := 0 }

def c9db : DB := { users := [], entries := [], nextUserId := 1, nextEntryId := 1 }

def c9req : Request := { method := Method.get, form := [], session := none, now := 0 }

def c10email : String := "iris@example.com"

def c10pw : String := "pw-seven"

def c10user : User := { id := 1, email := c10email, password_hash := generate_password_hash c10pw }

def c10db : DB := { users := [c10user], entries := [], nextUserId := 2, nextEntryId := 1 }

def cInf : String := "inf"

def cNan : String := "nan"

def cExp99 : String := "1e99"

def cPad42 : String := " 42 "

def c10req : Request :=
  { method := Method.post, form := [(fGlucose, cInf)], session := some 1, now := 7 }

/-! ### Helper lemmas -/

/-- The stored password hash is never the plaintext password. -/
theorem generate_password_hash_ne (p : String) : generate_password_hash p ≠ p := by
  intro h
  have hlen := congrArg String.length h
  rw [generate_password_hash, String.length_append] at hlen
  have hp : hashMethodTag.length = 19 := rfl
  omega

/-- Session resolution depends only on the user table and the session. -/
theorem currentUser_congr (db1 db2 : DB) (r1 r2 : Request)
    (hu : db1.users = db2.users) (hs : r1.session = r2.session) :
    currentUser db1 r1 = currentUser db2 r2 := by
  simp [currentUser, load_user, hu, hs]

/-- A dashboard GET by an authenticated user renders the 30 most recent
entries of that user and changes nothing. -/
theorem dashboard_get_renders (db : DB) (req : Request) (user : User)
    (hm : req.method = Method.get) (hu : currentUser db req = some user) :
    dashboard db req =
      { db := db, flashes := [],
        response := Response.render Page.dashboardPage (listRecent db user.id 30),
        session := req.session } := by
  simp [dashboard, hu, hm]

/-! ### Claim theorems -/

/-- C1: a POST to the register route by an unauthenticated client with a
non-empty email, a non-empty password equal to the confirm field, and an
email not already in the credential store, appends exactly one user
whose email is the submitted email and whose password hash is the salted
hash of the submitted password (never the plaintext), leaves the entry
store alone, and redirects to the login page with a success flash. -/
theorem register_creates_hashed_user (db : DB) (req : Request) (e p : String)
    (hm : req.method = Method.post)
    (hauth : currentUser db req = none)
    (he : formGet req.form fEmail = some e) (hene : e ≠ emptyString)
    (hp : formGet req.form fPassword = some p) (hpne : p ≠ emptyString)
    (hc : formGet req.form fConfirm = some p)
    (hdup : findByEmail db (some e) = none) :
    (register db req).db.users =
      db.users ++ [{ id := db.nextUserId, email := e,
                     password_hash := generate_password_hash p }] ∧
    generate_password_hash p ≠ p ∧
    (register db req).db.entries = db.entries ∧
    (register db req).response = Response.redirect Page.loginPage ∧
    (register db req).flashes = [{ message := msgRegOk, category := catSuccess }] := by
  have hne1 : truthy (some e) = true := by simp [truthy, hene]
  have hne2 : truthy (some p) = true := by simp [truthy, hpne]
  refine ⟨?_, generate_password_hash_ne p, ?_, ?_, ?_⟩ <;>
    simp [register, hauth, hm, he, hp, hc, hdup, hne1, hne2]

/-- Witness for C1 at a concrete empty store and registration request. -/
theorem register_creates_hashed_user_witness :
    (c1req.method = Method.post ∧ currentUser c1db c1req = none ∧
      formGet c1req.form fEmail = some c1email ∧ c1email ≠ emptyString ∧
      formGet c1req.form fPassword = some c1pw ∧ c1pw ≠ emptyString ∧
      formGet c1req.form fConfirm = some c1pw ∧
      findByEmail c1db (some c1email) = none) ∧
    ((register c1db c1req).db.users =
      c1db.users ++ [{ id := c1db.nextUserId, email := c1email,
                       password_hash := generate_password_hash c1pw }] ∧
      generate_password_hash c1pw ≠ c1pw ∧
      (register c1db c1req).db.entries = c1db.entries ∧
      (register c1db c1req).response = Response.redirect Page.loginPage ∧
      (register c1db c1req).flashes = [{ message := msgRegOk, category := catSuccess }]) :=
  ⟨⟨by decide, by decide, by decide, by decide, by decide, by decide, by decide, by decide⟩,
    register_creates_hashed_user c1db c1req c1email c1pw (by decide) (by decide) (by decide)
      (by decide) (by decide) (by decide) (by decide) (by decide)⟩

/-- C2 (amended): for every user id, limit and store state, the
dashboard query returns only that user's entries, at most `limit` of
them, in non-increasing (descending, ties adjacent) timestamp order. -/
theorem listRecent_filters_sorts_caps (db : DB) (uid lim : Nat) :
    (∀ e ∈ listRecent db uid lim, e.user_id = uid) ∧
    (listRecent db uid lim).length ≤ lim ∧
    List.Sorted entryDesc (listRecent db uid lim) := by
  refine ⟨?_, ?_, ?_⟩
  · intro e he
    simp only [listRecent] at he
    have h1 : e ∈ List.insertionSort entryDesc
        (db.entries.filter (fun x => x.user_id == uid)) :=
      List.take_subset lim _ he
    have h2 := (List.mem_insertionSort entryDesc).mp h1
    have h3 := (List.mem_filter.mp h2).2
    simpa using h3
  · simp only [listRecent]
    exact List.length_take_le _ _
  · simp only [listRecent]
    exact (List.sorted_insertionSort entryDesc _).sublist (List.take_sublist lim _)

/-- C2 counterexample: a store holding two entries of the same user with
equal timestamps; the dashboard query returns both, so its output is not
strictly descending in timestamp. -/
theorem listRecent_cex_strict :
    ¬ List.Pairwise (fun a b => b.timestamp < a.timestamp) (listRecent c2db 1 30) := by
  decide

/-- In a list sorted by descending timestamp, an element whose timestamp
strictly exceeds every other element's timestamp is the head. -/
theorem sorted_head_of_strict_max (l : List GlucoseEntry) (x : GlucoseEntry)
    (hs : List.Sorted entryDesc l) (hx : x ∈ l)
    (hmax : ∀ y ∈ l, y ≠ x → y.timestamp < x.timestamp) :
    ∃ t, l = x :: t := by
  cases l with
  | nil => cases hx
  | cons a t =>
      by_cases h : a = x
      · exact ⟨t, by rw [h]⟩
      · have hx' : x ∈ t := by
          cases List.mem_cons.mp hx with
          | inl h1 => exact absurd h1.symm h
          | inr h2 => exact h2
        have h1 : entryDesc a x := (List.sorted_cons.mp hs).1 x hx'
        have h2 : a.timestamp < x.timestamp := hmax a (List.mem_cons_self a t) h
        exact absurd h1 (not_le.mpr h2)

/-- C3: an authenticated dashboard POST whose glucose field parses as a
number appends exactly one entry, owned by the current user and carrying
the parsed value; once the clock exceeds all stored timestamps, that
entry is among those rendered by the next dashboard GET of that user. -/
theorem dashboard_post_creates_entry (db : DB) (req : Request) (user : User)
    (s : String) (v : PyFloat)
    (hm : req.method = Method.post)
    (hu : currentUser db req = some user)
    (hg : formGet req.form fGlucose = some s)
    (hv : pyFloat s = some v)
    (hfresh : ∀ x ∈ db.entries, x.timestamp < req.now) :
    (dashboard db req).db.entries = db.entries ++ [newGlucoseEntry db req user v] ∧
    (newGlucoseEntry db req user v).user_id = user.id ∧
    (newGlucoseEntry db req user v).glucose_value = v ∧
    newGlucoseEntry db req user v ∈ listRecent (dashboard db req).db user.id 30 ∧
    (∀ req2 : Request, req2.method = Method.get → req2.session = req.session →
      (dashboard (dashboard db req).db req2).response =
        Response.render Page.dashboardPage (listRecent (dashboard db req).db user.id 30)) := by
  have hpf : pyFloatOfOpt (formGet req.form fGlucose) = some v := by
    rw [hg]; simpa [pyFloatOfOpt] using hv
  have hdb : (dashboard db req).db =
      { db with
          entries := db.entries ++ [newGlucoseEntry db req user v],
          nextEntryId := db.nextEntryId + 1 } := by
    simp [dashboard, hu, hm, hpf]
  have hfilter :
      ((db.entries ++ [newGlucoseEntry db req user v]).filter
          (fun x => x.user_id == user.id)) =
        db.entries.filter (fun x => x.user_id == user.id) ++ [newGlucoseEntry db req user v] := by
    rw [List.filter_append]
    simp [newGlucoseEntry]
  have hmem :
      newGlucoseEntry db req user v ∈
        List.insertionSort entryDesc
          ((db.entries ++ [newGlucoseEntry db req user v]).filter
            (fun x => x.user_id == user.id)) := by
    rw [List.mem_insertionSort entryDesc, hfilter]
    exact List.mem_append_right _ (List.mem_singleton.mpr rfl)
  have hmax : ∀ y ∈ List.insertionSort entryDesc
      ((db.entries ++ [newGlucoseEntry db req user v]).filter
        (fun x => x.user_id == user.id)),
      y ≠ newGlucoseEntry db req user v → y.timestamp < (newGlucoseEntry db req user v).timestamp := by
    intro y hy hne
    have hyF := (List.mem_insertionSort entryDesc).mp hy
    rw [hfilter] at hyF
    cases List.mem_append.mp hyF with
    | inl h1 =>
        have : y ∈ db.entries := (List.mem_filter.mp h1).1
        exact hfresh y this
    | inr h2 => exact absurd (List.mem_singleton.mp h2) hne
  have hsorted : List.Sorted entryDesc
      (List.insertionSort entryDesc
        ((db.entries ++ [newGlucoseEntry db req user v]).filter
          (fun x => x.user_id == user.id))) :=
    List.sorted_insertionSort entryDesc _
  obtain ⟨t, ht⟩ := sorted_head_of_strict_max _ _ hsorted hmem hmax
  refine ⟨by rw [hdb], rfl, rfl, ?_, ?_⟩
  · rw [hdb]
    simp only [listRecent]
    show newGlucoseEntry db req user v ∈
      (List.insertionSort entryDesc
        ((db.entries ++ [newGlucoseEntry db req user v]).filter
          (fun x => x.user_id == user.id))).take 30
    rw [ht]
    simp
  · intro req2 h2m h2s
    have husers : (dashboard db req).db.users = db.users := by rw [hdb]
    have hu2 : currentUser (dashboard db req).db req2 = some user := by
      rw [currentUser_congr (dashboard db req).db db req2 req husers h2s]
      exact hu
    rw [dashboard_get_renders (dashboard db req).db req2 user h2m hu2]

/-- Witness for C3 at a concrete store, user and request (the submitted
glucose string is `"120"`, parsing to the rational 120). -/
theorem dashboard_post_creates_entry_witness :
    (c3req.method = Method.post ∧ currentUser c3db c3req = some c3user ∧
      formGet c3req.form fGlucose = some c3glucose ∧
      pyFloat c3glucose = some (PyFloat.val (ratVal 120 0 0)) ∧
      (∀ x ∈ c3db.entries, x.timestamp < c3req.now)) ∧
    ((dashboard c3db c3req).db.entries =
        c3db.entries ++ [newGlucoseEntry c3db c3req c3user (PyFloat.val (ratVal 120 0 0))] ∧
      (newGlucoseEntry c3db c3req c3user (PyFloat.val (ratVal 120 0 0))).user_id = c3user.id ∧
      (newGlucoseEntry c3db c3req c3user (PyFloat.val (ratVal 120 0 0))).glucose_value =
        PyFloat.val (ratVal 120 0 0) ∧
      newGlucoseEntry c3db c3req c3user (PyFloat.val (ratVal 120 0 0)) ∈
        listRecent (dashboard c3db c3req).db c3user.id 30 ∧
      (∀ req2 : Request, req2.method = Method.get → req2.session = c3req.session →
        (dashboard (dashboard c3db c3req).db req2).response =
          Response.render Page.dashboardPage
            (listRecent (dashboard c3db c3req).db c3user.id 30))) :=
  ⟨⟨by decide, by decide, by decide, rfl, by decide⟩,
    dashboard_post_creates_entry c3db c3req c3user c3glucose (PyFloat.val (ratVal 120 0 0))
      (by decide) (by decide) (by decide) rfl (by decide)⟩

/-- C4 counterexample: a dashboard POST whose form carries no medication
and no notes field stores `None` (SQL `NULL`) in both optional columns,
not the empty string the claim asserts. -/
theorem dashboard_optional_fields_cex :
    formGet c4req.form fMedication = none ∧ formGet c4req.form fNotes = none ∧
    (dashboard c4db c4req).db.entries.map GlucoseEntry.medication = [none] ∧
    (dashboard c4db c4req).db.entries.map GlucoseEntry.notes = [none] ∧
    (none : Option String) ≠ some emptyString := by
  refine ⟨by decide, by decide, ?_, ?_, by decide⟩ <;>
    rw [show (dashboard c4db c4req).db.entries =
          [newGlucoseEntry c4db c4req c4user (PyFloat.val (ratVal 100 0 0))] from rfl] <;>
    decide

/-- C4 (amended): the optional medication and notes fields of a created
entry are stored exactly as submitted, and as `None`/`NULL` (an absent
value, not the empty string) when the form field is missing. -/
theorem dashboard_optional_fields_stored (db : DB) (req : Request) (user : User)
    (s : String) (v : PyFloat)
    (hm : req.method = Method.post)
    (hu : currentUser db req = some user)
    (hg : formGet req.form fGlucose = some s)
    (hv : pyFloat s = some v) :
    (dashboard db req).db.entries = db.entries ++ [newGlucoseEntry db req user v] ∧
    (newGlucoseEntry db req user v).medication = formGet req.form fMedication ∧
    (newGlucoseEntry db req user v).notes = formGet req.form fNotes ∧
    (formGet req.form fMedication = none → (newGlucoseEntry db req user v).medication = none) ∧
    (formGet req.form fNotes = none → (newGlucoseEntry db req user v).notes = none) := by
  have hpf : pyFloatOfOpt (formGet req.form fGlucose) = some v := by
    rw [hg]; simpa [pyFloatOfOpt] using hv
  refine ⟨?_, rfl, rfl, fun h => by simp [newGlucoseEntry, h], fun h => by simp [newGlucoseEntry, h]⟩
  simp [dashboard, hu, hm, hpf]

/-- Witness for the amended C4 at a concrete request carrying neither
optional field. -/
theorem dashboard_optional_fields_stored_witness :
    (c4req.method = Method.post ∧ currentUser c4db c4req = some c4user ∧
      formGet c4req.form fGlucose = some c4glucose ∧
      pyFloat c4glucose = some (PyFloat.val (ratVal 100 0 0))) ∧
    ((dashboard c4db c4req).db.entries =
        c4db.entries ++ [newGlucoseEntry c4db c4req c4user (PyFloat.val (ratVal 100 0 0))] ∧
      (newGlucoseEntry c4db c4req c4user (PyFloat.val (ratVal 100 0 0))).medication =
        formGet c4req.form fMedication ∧
      (newGlucoseEntry c4db c4req c4user (PyFloat.val (ratVal 100 0 0))).notes =
        formGet c4req.form fNotes ∧
      (formGet c4req.form fMedication = none →
        (newGlucoseEntry c4db c4req c4user (PyFloat.val (ratVal 100 0 0))).medication = none) ∧
      (formGet c4req.form fNotes = none →
        (newGlucoseEntry c4db c4req c4user (PyFloat.val (ratVal 100 0 0))).notes = none)) :=
  ⟨⟨by decide, by decide, by decide, rfl⟩,
    dashboard_optional_fields_stored c4db c4req c4user c4glucose (PyFloat.val (ratVal 100 0 0))
      (by decide) (by decide) (by decide) rfl⟩

/-- C5: the two failing login shapes — unknown email, and known email
with a wrong password — produce identical observable outcomes: the same
generic danger flash, the same re-rendered login page, an unchanged
store, and no session established in either case. -/
theorem login_failures_indistinguishable (db : DB) (r1 r2 : Request) (u : User) (pw2 : String)
    (h1m : r1.method = Method.post) (h2m : r2.method = Method.post)
    (h1a : currentUser db r1 = none) (h2a : currentUser db r2 = none)
    (h1e : findByEmail db (formGet r1.form fEmail) = none)
    (h2e : findByEmail db (formGet r2.form fEmail) = some u)
    (h2p : formGet r2.form fPassword = some pw2)
    (h2w : u.password_hash ≠ generate_password_hash pw2) :
    (login db r1).response = (login db r2).response ∧
    (login db r1).flashes = (login db r2).flashes ∧
    (login db r1).response = Response.render Page.loginPage [] ∧
    (login db r1).flashes = [{ message := msgInvalid, category := catDanger }] ∧
    (login db r1).db = db ∧ (login db r2).db = db ∧
    (login db r1).session.bind (load_user db) = none ∧
    (login db r2).session.bind (load_user db) = none := by
  have hcp : check_password u (formGet r2.form fPassword) = false := by
    rw [h2p]
    simp [check_password, check_password_hash, h2w]
  have hr1 : login db r1 =
      { db := db, flashes := [{ message := msgInvalid, category := catDanger }],
        response := Response.render Page.loginPage [], session := r1.session } := by
    simp [login, h1a, h1m, h1e]
  have hr2 : login db r2 =
      { db := db, flashes := [{ message := msgInvalid, category := catDanger }],
        response := Response.render Page.loginPage [], session := r2.session } := by
    simp [login, h2a, h2m, h2e, hcp]
  rw [hr1, hr2]
  exact ⟨rfl, rfl, rfl, rfl, rfl, rfl, h1a, h2a⟩

/-- Witness for C5: a store with one user; one request with an unknown
email, one with the right email but the wrong password. -/
theorem login_failures_indistinguishable_witness :
    (c5req1.method = Method.post ∧ c5req2.method = Method.post ∧
      currentUser c5db c5req1 = none ∧ currentUser c5db c5req2 = none ∧
      findByEmail c5db (formGet c5req1.form fEmail) = none ∧
      findByEmail c5db (formGet c5req2.form fEmail) = some c5user ∧
      formGet c5req2.form fPassword = some c5pwWrong ∧
      c5user.password_hash ≠ generate_password_hash c5pwWrong) ∧
    ((login c5db c5req1).response = (login c5db c5req2).response ∧
      (login c5db c5req1).flashes = (login c5db c5req2).flashes ∧
      (login c5db c5req1).response = Response.render Page.loginPage [] ∧
      (login c5db c5req1).flashes = [{ message := msgInvalid, category := catDanger }] ∧
      (login c5db c5req1).db = c5db ∧ (login c5db c5req2).db = c5db ∧
      (login c5db c5req1).session.bind (load_user c5db) = none ∧
      (login c5db c5req2).session.bind (load_user c5db) = none) :=
  ⟨⟨by decide, by decide, by decide, by decide, by decide, by decide, by decide, by decide⟩,
    login_failures_indistinguishable c5db c5req1 c5req2 c5user c5pwWrong
      (by decide) (by decide) (by decide) (by decide) (by decide) (by decide)
      (by decide) (by decide)⟩

/-- C6 counterexample: an unauthenticated registration POST whose email
is already stored but whose confirm field mismatches is redirected to
the registration form with a danger flash, not to the login page with a
warning, although its email is already present. -/
theorem register_duplicate_cex :
    (∃ u ∈ c6db.users, u.email = c6email) ∧
    formGet c6cexReq.form fEmail = some c6email ∧
    (register c6db c6cexReq).response ≠ Response.redirect Page.loginPage ∧
    (∀ f ∈ (register c6db c6cexReq).flashes, f.category ≠ catWarning) := by
  decide

/-- C6 (amended): an unauthenticated registration POST that passes the
presence and confirmation checks (non-empty email and password, password
equal to confirm) and whose email is already stored (case-sensitive
exact match) mutates nothing and redirects to the login page with a
warning flash. -/
theorem register_duplicate_redirects_login (db : DB) (req : Request) (u : User) (e p : String)
    (hm : req.method = Method.post)
    (hauth : currentUser db req = none)
    (he : formGet req.form fEmail = some e) (hene : e ≠ emptyString)
    (hp : formGet req.form fPassword = some p) (hpne : p ≠ emptyString)
    (hc : formGet req.form fConfirm = some p)
    (hdup : findByEmail db (some e) = some u) :
    (register db req).db = db ∧
    (register db req).response = Response.redirect Page.loginPage ∧
    (register db req).flashes = [{ message := msgTaken, category := catWarning }] := by
  have hne1 : truthy (some e) = true := by simp [truthy, hene]
  have hne2 : truthy (some p) = true := by simp [truthy, hpne]
  refine ⟨?_, ?_, ?_⟩ <;> simp [register, hauth, hm, he, hp, hc, hdup, hne1, hne2]

/-- Witness for the amended C6: registering the already-present email a
second time with matching passwords. -/
theorem register_duplicate_redirects_login_witness :
    (c6req.method = Method.post ∧ currentUser c6db c6req = none ∧
      formGet c6req.form fEmail = some c6email ∧ c6email ≠ emptyString ∧
      formGet c6req.form fPassword = some c6pw ∧ c6pw ≠ emptyString ∧
      formGet c6req.form fConfirm = some c6pw ∧
      findByEmail c6db (some c6email) = some c6user) ∧
    ((register c6db c6req).db = c6db ∧
      (register c6db c6req).response = Response.redirect Page.loginPage ∧
      (register c6db c6req).flashes = [{ message := msgTaken, category := catWarning }]) :=
  ⟨⟨by decide, by decide, by decide, by decide, by decide, by decide, by decide, by decide⟩,
    register_duplicate_redirects_login c6db c6req c6user c6email c6pw
      (by decide) (by decide) (by decide) (by decide) (by decide) (by decide)
      (by decide) (by decide)⟩

/-- C7: an authenticated dashboard POST whose glucose field does not
parse as a number (including an absent field) leaves the store
unchanged and redirects to the dashboard with an error flash. -/
theorem dashboard_post_invalid_rejected (db : DB) (req : Request) (user : User)
    (hm : req.method = Method.post)
    (hu : currentUser db req = some user)
    (hg : pyFloatOfOpt (formGet req.form fGlucose) = none) :
    (dashboard db req).db = db ∧
    (dashboard db req).response = Response.redirect Page.dashboardPage ∧
    (dashboard db req).flashes = [{ message := msgBadNumber, category := catDanger }] := by
  refine ⟨?_, ?_, ?_⟩ <;> simp [dashboard, hu, hm, hg]

/-- Witness for C7: a POST with no glucose field at all (the `None` /
`TypeError` branch of the handler). -/
theorem dashboard_post_invalid_rejected_witness :
    (c7req.method = Method.post ∧ currentUser c7db c7req = some c7user ∧
      pyFloatOfOpt (formGet c7req.form fGlucose) = none) ∧
    ((dashboard c7db c7req).db = c7db ∧
      (dashboard c7db c7req).response = Response.redirect Page.dashboardPage ∧
      (dashboard c7db c7req).flashes = [{ message := msgBadNumber, category := catDanger }]) :=
  ⟨⟨by decide, by decide, by decide⟩,
    dashboard_post_invalid_rejected c7db c7req c7user (by decide) (by decide) (by decide)⟩

/-- C8 counterexample: a client that POSTs mismatched passwords to the
register route while holding an authenticated session is redirected to
the dashboard with no flash at all — not back to the registration form
with an error, as the claim states for every POST. -/
theorem register_mismatch_cex :
    formGet c8cexReq.form fPassword ≠ formGet c8cexReq.form fConfirm ∧
    (register c8db c8cexReq).response ≠ Response.redirect Page.registerPage ∧
    (register c8db c8cexReq).flashes = [] := by
  decide

/-- C8 (amended): an unauthenticated POST to the register route whose
password field differs from the confirm field creates no user (the store
is unchanged) and redirects back to the registration form with a danger
flash. -/
theorem register_mismatch_rejected (db : DB) (req : Request)
    (hm : req.method = Method.post)
    (hauth : currentUser db req = none)
    (hne : formGet req.form fPassword ≠ formGet req.form fConfirm) :
    (register db req).db = db ∧
    (register db req).response = Response.redirect Page.registerPage ∧
    ∃ f ∈ (register db req).flashes, f.category = catDanger := by
  cases hb : (!(truthy (formGet req.form fEmail)) || !(truthy (formGet req.form fPassword))) with
  | true => simp [register, hauth, hm, hb]
  | false => simp [register, hauth, hm, hb, hne]

/-- Witness for the amended C8 at a concrete unauthenticated request. -/
theorem register_mismatch_rejected_witness :
    (c8req.method = Method.post ∧ currentUser c8db c8req = none ∧
      formGet c8req.form fPassword ≠ formGet c8req.form fConfirm) ∧
    ((register c8db c8req).db = c8db ∧
      (register c8db c8req).response = Response.redirect Page.registerPage ∧
      ∃ f ∈ (register c8db c8req).flashes, f.category = catDanger) :=
  ⟨⟨by decide, by decide, by decide⟩,
    register_mismatch_rejected c8db c8req (by decide) (by decide) (by decide)⟩

/-- C9: an unauthenticated request to a protected route (dashboard or
logout) never renders entries: it is answered by a redirect to the login
page, mutates nothing, and shows no error flash (flask-login emits only
its informational `message`-category notice). -/
theorem unauthenticated_protected_redirect (db : DB) (req : Request)
    (hauth : currentUser db req = none) :
    (dashboard db req).response = Response.redirect Page.loginPage ∧
    (dashboard db req).db = db ∧
    (∀ p es, (dashboard db req).response ≠ Response.render p es) ∧
    (∀ f ∈ (dashboard db req).flashes, f.category ≠ catDanger) ∧
    (logout db req).response = Response.redirect Page.loginPage ∧
    (logout db req).db = db ∧
    (∀ f ∈ (logout db req).flashes, f.category ≠ catDanger) := by
  have hd : dashboard db req = unauthorized db req := by simp [dashboard, hauth]
  have hl : logout db req = unauthorized db req := by simp [logout, hauth]
  rw [hd, hl]
  refine ⟨rfl, rfl, fun p es h => Response.noConfusion h, ?_, rfl, rfl, ?_⟩ <;>
    · intro f hf
      simp [unauthorized] at hf
      rw [hf]
      decide

/-- Witness for C9 at a concrete anonymous request. -/
theorem unauthenticated_protected_redirect_witness :
    (currentUser c9db c9req = none) ∧
    ((dashboard c9db c9req).response = Response.redirect Page.loginPage ∧
      (dashboard c9db c9req).db = c9db ∧
      (∀ p es, (dashboard c9db c9req).response ≠ Response.render p es) ∧
      (∀ f ∈ (dashboard c9db c9req).flashes, f.category ≠ catDanger) ∧
      (logout c9db c9req).response = Response.redirect Page.loginPage ∧
      (logout c9db c9req).db = c9db ∧
      (∀ f ∈ (logout c9db c9req).flashes, f.category ≠ catDanger)) :=
  ⟨by decide, unauthenticated_protected_redirect c9db c9req (by decide)⟩

/-- C10: the dashboard POST accepts exactly the strings the embedded
Python float parser accepts — an entry is created iff the glucose field
parses — storing the parsed value; and the parser accepts the exotic
spellings `inf`, `nan`, `1e99` and whitespace-padded `42`, yielding the
corresponding (possibly non-finite) values. -/
theorem dashboard_accepts_python_float_grammar (db : DB) (req : Request) (user : User)
    (hm : req.method = Method.post)
    (hu : currentUser db req = some user) :
    ((dashboard db req).db.entries ≠ db.entries ↔
      pyFloatOfOpt (formGet req.form fGlucose) ≠ none) ∧
    (∀ s v, formGet req.form fGlucose = some s → pyFloat s = some v →
      (dashboard db req).db.entries = db.entries ++ [newGlucoseEntry db req user v] ∧
      (newGlucoseEntry db req user v).glucose_value = v) ∧
    pyFloat cInf = some (PyFloat.inf false) ∧
    pyFloat cNan = some PyFloat.nan ∧
    pyFloat cExp99 = some (PyFloat.val ((10 : Rat) ^ (99 : Nat))) ∧
    pyFloat cPad42 = some (PyFloat.val 42) := by
  refine ⟨?_, ?_, by decide, by decide, ?_, ?_⟩
  · cases h : pyFloatOfOpt (formGet req.form fGlucose) with
    | none =>
        have hsame : (dashboard db req).db = db := by simp [dashboard, hu, hm, h]
        rw [hsame]
        simp
    | some v =>
        have hdb : (dashboard db req).db.entries =
            db.entries ++ [newGlucoseEntry db req user v] := by
          simp [dashboard, hu, hm, h]
        rw [hdb]
        simp only [ne_eq, iff_true, Option.some_ne_none, not_false_eq_true]
        intro hEq
        have := congrArg List.length hEq
        simp at this
  · intro s v hs hv
    have hpf : pyFloatOfOpt (formGet req.form fGlucose) = some v := by
      rw [hs]; simpa [pyFloatOfOpt] using hv
    exact ⟨by simp [dashboard, hu, hm, hpf], rfl⟩
  · have h1 : pyFloat cExp99 = some (PyFloat.val (ratVal 1 0 99)) := rfl
    rw [h1]
    simp [ratVal]
    norm_num
  · have h2 : pyFloat cPad42 = some (PyFloat.val (ratVal 42 0 0)) := rfl
    rw [h2]
    simp [ratVal]

/-- Witness for C10 at a concrete request submitting `inf`. -/
theorem dashboard_accepts_python_float_grammar_witness :
    (c10req.method = Method.post ∧ currentUser c10db c10req = some c10user) ∧
    (((dashboard c10db c10req).db.entries ≠ c10db.entries ↔
        pyFloatOfOpt (formGet c10req.form fGlucose) ≠ none) ∧
      (∀ s v, formGet c10req.form fGlucose = some s → pyFloat s = some v →
        (dashboard c10db c10req).db.entries =
          c10db.entries ++ [newGlucoseEntry c10db c10req c10user v] ∧
        (newGlucoseEntry c10db c10req c10user v).glucose_value = v) ∧
      pyFloat cInf = some (PyFloat.inf false) ∧
      pyFloat cNan = some PyFloat.nan ∧
      pyFloat cExp99 = some (PyFloat.val ((10 : Rat) ^ (99 : Nat))) ∧
      pyFloat cPad42 = some (PyFloat.val 42)) :=
  ⟨⟨by decide, by decide⟩,
    dashboard_accepts_python_float_grammar c10db c10req c10user (by decide) (by decide)⟩

end DiabetesApp
